import Mathlib

/-!
# Verification of the RDML element-group management core (`rdml.py`)

Shallow embedding of the element-group management engine of the
RDML-Python library: an XML element is modelled as a `Elem` tree
(tag, attribute list, optional text, ordered children), and each helper
function of the source is translated into a Lean function over that model.

Conventions of the embedding:

* lxml attribute lookup `node.get(k)` returns `None` when the attribute is
  missing, and an element's `.text` is `None` for an empty element, so both
  are modelled with `Option String`.
* Python exceptions become `Except PyErr` results.  The source raises a
  single `RdmlError` class carrying a message; the spec's error taxonomy
  (FormatError, MissingIdError, DuplicateIdError, MissingRequiredFieldError,
  AmbiguousSelectorError, NotFoundError, IndexOutOfRangeError) corresponds
  to message families of `PyErr.rdmlError`.  Interpreter-level failures that
  the source can hit (an undefined name, a string/int concatenation, a
  non-integer element index) are modelled by `PyErr.nameError` and
  `PyErr.typeError`; their payloads are short descriptions, since the exact
  message text belongs to the interpreter, not to the source.
* The external XML parser and serializer are out-of-scope collaborators
  (spec section 1 and section 6): the core receives an already-parsed tree,
  so `loadXMLString` takes the parsed root `Elem` directly.
-/

/-- The namespace prefix every RDML tag carries: `\x7bhttp://www.rdml.org\x7d`. -/
def nsTag (tag : String) : String :=
  "\x7bhttp://www.rdml.org\x7d" ++ tag

/-- An XML element as the source sees it through lxml: a tag, an ordered
attribute list, optional text content and an ordered list of children. -/
inductive Elem : Type where
  | mk (tag : String) (attrs : List (String × String)) (text : Option String)
       (children : List Elem) : Elem

/-- The element's tag. -/
def Elem.tag : Elem → String
  | .mk t _ _ _ => t

/-- The element's attribute list. -/
def Elem.attrs : Elem → List (String × String)
  | .mk _ a _ _ => a

/-- The element's text content (`None` for an empty element). -/
def Elem.text : Elem → Option String
  | .mk _ _ tx _ => tx

/-- The element's ordered children. -/
def Elem.children : Elem → List Elem
  | .mk _ _ _ c => c

/-- lxml `node.get(key)`: the attribute value, or `None` when absent. -/
def elemGet (e : Elem) (key : String) : Option String :=
  (e.attrs.find? (fun p => p.1 == key)).map (fun p => p.2)

/-- Python exceptions the embedded code can raise. -/
inductive PyErr : Type where
  | rdmlError (message : String) : PyErr
  | nameError (name : String) : PyErr
  | typeError (description : String) : PyErr
  | keyError : PyErr
deriving Repr, DecidableEq

/-- Loop of `_get_first_child`: first child with the namespaced tag. -/
def firstChildLoop (tag : String) : List Elem → Option Elem
  | [] => none
  | c :: rest => if c.tag == nsTag tag then some c else firstChildLoop tag rest

/-- `_get_first_child(base, tag)`: the first child of `base` whose tag is
the namespaced `tag`, or `None`. -/
def _get_first_child (base : Elem) (tag : String) : Option Elem :=
  firstChildLoop tag base.children

/-- `_get_first_child_text(base, tag)`: the text of the first child with the
given tag (which lxml reports as `None` for an empty element), or the string
`""` when no such child exists. -/
def _get_first_child_text (base : Elem) (tag : String) : Option String :=
  match _get_first_child base tag with
  | some c => c.text
  | none => some ""

/-- Loop of `_get_all_children`. -/
def allChildrenLoop (tag : String) : List Elem → List Elem
  | [] => []
  | c :: rest =>
    if c.tag == nsTag tag then c :: allChildrenLoop tag rest
    else allChildrenLoop tag rest

/-- `_get_all_children(base, tag)`: all children with the namespaced tag,
in document order. -/
def _get_all_children (base : Elem) (tag : String) : List Elem :=
  allChildrenLoop tag base.children

/-- Loop of `_get_number_of_children`. -/
def countChildrenLoop (tag : String) : List Elem → Nat
  | [] => 0
  | c :: rest =>
    if c.tag == nsTag tag then countChildrenLoop tag rest + 1
    else countChildrenLoop tag rest

/-- `_get_number_of_children(base, tag)`: how many children carry the tag. -/
def _get_number_of_children (base : Elem) (tag : String) : Nat :=
  countChildrenLoop tag base.children

/-- Loop of `_check_unique_id` over the children list. -/
def checkUniqueIdLoop (tag id : String) : List Elem → Bool
  | [] => true
  | c :: rest =>
    if c.tag == nsTag tag && elemGet c "id" == some id then false
    else checkUniqueIdLoop tag id rest

/-- `_check_unique_id(base, tag, id)`: `False` when some child of the tag
group already carries the attribute `id`, `True` otherwise. -/
def _check_unique_id (base : Elem) (tag id : String) : Bool :=
  checkUniqueIdLoop tag id base.children

/-- `_create_new_element(base, tag, id)`: rejects a `None` or empty id,
rejects an id already used in the tag group of `base`, and otherwise returns
the new detached element `ET.Element(ns + tag, id=id)` — one attribute, no
text, no children.  `base` is only read, never modified. -/
def _create_new_element (base : Elem) (tag : String) (id : Option String) :
    Except PyErr Elem :=
  match id with
  | none => .error (.rdmlError ("An " ++ tag ++ " id must be provided."))
  | some s =>
    if s = "" then .error (.rdmlError ("An " ++ tag ++ " id must be provided."))
    else if _check_unique_id base tag s then
      .ok (.mk (nsTag tag) [("id", s)] none [])
    else
      .error (.rdmlError ("The " ++ tag ++ " id \"" ++ s ++ "\" must be unique."))

/-- `_add_new_subelement(base, basetag, tag, text, opt)`: for a required
field (`opt = False`) a `None` or empty text raises, otherwise a subelement
carrying the text is appended to `base`; for an optional field the
subelement is appended only when the text is neither `None` nor empty.
The source mutates `base` in place; here the updated element is returned. -/
def _add_new_subelement (base : Elem) (basetag tag : String)
    (text : Option String) (opt : Bool) : Except PyErr Elem :=
  if opt = false then
    match text with
    | none => .error (.rdmlError ("An " ++ basetag ++ " " ++ tag ++ " must be provided."))
    | some s =>
      if s = "" then
        .error (.rdmlError ("An " ++ basetag ++ " " ++ tag ++ " must be provided."))
      else
        .ok (.mk base.tag base.attrs base.text
              (base.children ++ [.mk (nsTag tag) [] (some s) []]))
  else
    match text with
    | none => .ok base
    | some s =>
      if s = "" then .ok base
      else
        .ok (.mk base.tag base.attrs base.text
              (base.children ++ [.mk (nsTag tag) [] (some s) []]))

/-- The scan loop of `_get_first_tag_pos`: walks the children with a
running `counter`, remembering in `experimenter` the index of the first
child tagged `experimenter`; returns the final `(counter, experimenter)`
pair (`experimenter = -1` when no such child exists). -/
def firstTagScan : List Elem → Int → Int → Int × Int
  | [], counter, experimenter => (counter, experimenter)
  | c :: rest, counter, experimenter =>
    firstTagScan rest (counter + 1)
      (if c.tag == nsTag "experimenter" && decide (experimenter < 0) then counter
       else experimenter)

/-- `_get_first_tag_pos(base, tag)`: the base child index for the tag's
group — for `"experimenter"` the index of the first experimenter child (or
`-1` when there is none), and for every other tag `len(base) - 1`
(the source's `Todo: Fix for other elements` fallback). -/
def _get_first_tag_pos (base : Elem) (tag : String) : Int :=
  let scan := firstTagScan base.children 0 (-1)
  if tag = "experimenter" then scan.2 else scan.1 - 1

/-- `_get_tag_pos(base, tag, pos)`: `offset` starts at `0`; the guard
`pos is None or pos < 0` keeps it `0`, and `pos > count` replaces it with
`count`.  An absent `pos` never takes the second branch: under the ordering
the interpreter gives `None` (it sorts below every integer) `None > count`
is false, so the offset stays `0`.  A `pos` inside `[0, count]` also keeps
offset `0` — the source never copies an in-range `pos` into `offset`.
The result is `_get_first_tag_pos(base, tag) + offset`. -/
def _get_tag_pos (base : Elem) (tag : String) (pos : Option Int) : Int :=
  let count : Int := _get_number_of_children base tag
  let offset : Int :=
    match pos with
    | none => 0
    | some p => if p > count then count else 0
  _get_first_tag_pos base tag + offset

/-- Python `list.insert` semantics, used for `self._node.insert(place, node)`:
a negative index counts from the end and is clamped at `0`; a positive index
is clamped at the length.  (lxml's `insert` agrees with this on every index
`>= -len(l)`, and the source only ever produces `place >= -1`.) -/
def pyInsert (l : List Elem) (i : Int) (x : Elem) : List Elem :=
  let n : Int := l.length
  let j : Int := if i < 0 then max (n + i) 0 else min i n
  l.take j.toNat ++ x :: l.drop j.toNat

/-- `_get_first_child_by_pos_or_id(base, tag, by_id, by_pos)`.

The two selector-exclusivity checks raise `RdmlError` with a message naming
the tag.  The two remaining paths are translated exactly as the interpreter
executes them:

* searching by id, the loop body evaluates `node["id"]`, and indexing an
  lxml element with a string raises `TypeError`; with no child of the tag
  at all, the loop falls through to line 82, which evaluates the undefined
  name `byid` and raises `NameError` before any `RdmlError` is built;
* an out-of-range position reaches line 85, whose message expression
  `'The ' + tag + ' position ' + by_pos` concatenates a string with an
  integer and raises `TypeError`. -/
def _get_first_child_by_pos_or_id (base : Elem) (tag : String)
    (by_id : Option String) (by_pos : Option Int) : Except PyErr Elem :=
  match by_id, by_pos with
  | none, none =>
    .error (.rdmlError ("Either an " ++ tag ++ " id or a position must be provided."))
  | some _, some _ =>
    .error (.rdmlError ("Only an " ++ tag ++ " id or a position can be provided."))
  | some _, none =>
    match _get_all_children base tag with
    | [] => .error (.nameError "byid")
    | _ :: _ => .error (.typeError "element indices must be integers")
  | none, some p =>
    let exp := _get_all_children base tag
    if p < 0 ∨ p > (exp.length : Int) - 1 then
      .error (.typeError "cannot concatenate str and int")
    else
      -- `exp[by_pos]` with the bound already checked; the fallback is dead.
      .ok (exp.getD p.toNat base)

/-- A Python dictionary with string keys and string-or-`None` values,
as an ordered association list (Python dictionaries preserve insertion
order). -/
abbrev JsonDict : Type := List (String × Option String)

/-- Python `dic[key] = value`: replace the value of an existing key in
place, or append a new entry. -/
def dictSet (dic : JsonDict) (key : String) (value : Option String) : JsonDict :=
  match dic with
  | [] => [(key, value)]
  | entry :: rest =>
    if entry.1 = key then (key, value) :: rest
    else entry :: dictSet rest key value

/-- `key in dic` for the dictionary model. -/
def containsKey (dic : JsonDict) (key : String) : Bool :=
  match dic with
  | [] => false
  | entry :: rest => if entry.1 = key then true else containsKey rest key

/-- Loop of `_add_first_child_to_dic`: the first child carrying the tag
writes its text into the dictionary and the loop returns; with no such
child a non-optional tag writes the empty string instead. -/
def addFirstChildLoop (dic : JsonDict) (opt : Bool) (tag : String) :
    List Elem → JsonDict
  | [] => if opt then dic else dictSet dic tag (some "")
  | c :: rest =>
    if c.tag == nsTag tag then dictSet dic tag c.text
    else addFirstChildLoop dic opt tag rest

/-- `_add_first_child_to_dic(base, dic, opt, tag)`. -/
def _add_first_child_to_dic (base : Elem) (dic : JsonDict) (opt : Bool)
    (tag : String) : JsonDict :=
  addFirstChildLoop dic opt tag base.children

/-- The versions `loadXMLString` accepts (source line 370). -/
def supportedVersions : List String := ["1.0", "1.1", "1.2"]

/-- The state of a loaded `Rdml` instance: the root node of the tree and
the `_rdmlVersion` string.  Every loaded instance comes out of
`loadXMLString`, which guarantees the version is one of
`supportedVersions`. -/
structure RdmlState : Type where
  node : Elem
  version : String

/-- `Rdml.loadXMLString(data)` after the external parse: rejects a root
whose tag is not the namespaced `rdml`, stores `_rdmlVersion` from the
root's `version` attribute, and rejects a missing or unsupported version. -/
def loadXMLString (root : Elem) : Except PyErr RdmlState :=
  if root.tag = nsTag "rdml" then
    match elemGet root "version" with
    | some v =>
      if v ∈ supportedVersions then .ok ⟨root, v⟩
      else .error (.rdmlError "Unknown or unsupported RDML file version.")
    | none => .error (.rdmlError "Unknown or unsupported RDML file version.")
  else
    .error (.rdmlError "Root element is not \x27rdml\x27, not a valid RDML or XML file.")

/-- The tree denoted by the literal the source builds in `Rdml.new()`:
`<rdml version=\x271.2\x27 ...><dateMade>now</dateMade></rdml>` (the two
`xmlns` declarations are namespace bindings, not attributes). -/
def newTree (now : String) : Elem :=
  .mk (nsTag "rdml") [("version", "1.2")] (some "\n")
    [.mk (nsTag "dateMade") [] (some now) []]

/-- `Rdml.new()`: builds the literal document for the current time `now`
and feeds it through `loadXMLString`. -/
def rdmlNew (now : String) : Except PyErr RdmlState :=
  loadXMLString (newTree now)

/-- `Rdml.new_experimenter(id, firstName, lastName, email, labName,
labAddress, newposition)`: creates the detached node (id presence and
uniqueness checked), fills the two required and three optional fields,
computes the insertion place and only then inserts the node into the
root's children. -/
def new_experimenter (st : RdmlState) (id firstName lastName email labName
    labAddress : Option String) (newposition : Option Int) :
    Except PyErr RdmlState := do
  let n0 ← _create_new_element st.node "experimenter" id
  let n1 ← _add_new_subelement n0 "experimenter" "firstName" firstName false
  let n2 ← _add_new_subelement n1 "experimenter" "lastName" lastName false
  let n3 ← _add_new_subelement n2 "experimenter" "email" email true
  let n4 ← _add_new_subelement n3 "experimenter" "labName" labName true
  let n5 ← _add_new_subelement n4 "experimenter" "labAddress" labAddress true
  let place := _get_tag_pos st.node "experimenter" newposition
  .ok ⟨.mk st.node.tag st.node.attrs st.node.text
        (pyInsert st.node.children place n5), st.version⟩

/-- The document state after a call to `new_experimenter`, observing the
exception semantics of the source: the method touches `self._node` only in
its final `insert`, after every raise site, so a raising call leaves the
tree exactly as it was. -/
def new_experimenter_after (st : RdmlState) (id firstName lastName email
    labName labAddress : Option String) (newposition : Option Int) :
    RdmlState :=
  match new_experimenter st id firstName lastName email labName labAddress
      newposition with
  | .ok st2 => st2
  | .error _ => st

/-- `Experimenter.__getitem__(key)`: the id attribute for `"id"`, the first
child's text for the two required fields, the empty-normalized text for the
three optional fields (a present-but-blank field reads as `None`, like an
absent one), and `KeyError` for anything else. -/
def experimenter_getitem (node : Elem) (key : String) :
    Except PyErr (Option String) :=
  if key = "id" then .ok (elemGet node "id")
  else if key = "firstName" ∨ key = "lastName" then
    .ok (_get_first_child_text node key)
  else if key = "email" ∨ key = "labName" ∨ key = "labAddress" then
    match _get_first_child_text node key with
    | some "" => .ok none
    | v => .ok v
  else .error .keyError

/-- `Experimenter.tojson()`: id and the two required fields
unconditionally, then the three optional fields only if their element is
present. -/
def experimenterToJson (node : Elem) : JsonDict :=
  let data : JsonDict :=
    [("id", elemGet node "id"),
     ("firstName", _get_first_child_text node "firstName"),
     ("lastName", _get_first_child_text node "lastName")]
  let data := _add_first_child_to_dic node data true "email"
  let data := _add_first_child_to_dic node data true "labName"
  _add_first_child_to_dic node data true "labAddress"

/-- The projection `Rdml.tojson()` builds (the value of its single
`"rdml"` key). -/
structure RdmlJson : Type where
  version : String
  dateMade : Option String
  dateUpdated : Option String
  experimenters : List JsonDict
deriving Repr, DecidableEq

/-- `Rdml.tojson()`. -/
def tojson (st : RdmlState) : RdmlJson :=
  ⟨st.version,
   _get_first_child_text st.node "dateMade",
   _get_first_child_text st.node "dateUpdated",
   (_get_all_children st.node "experimenter").map experimenterToJson⟩

/-- One diagnostic of the external schema validator
(`xmlschema.error_log`): a line, a column and a message. -/
structure SchemaDiag : Type where
  line : Nat
  column : Nat
  message : String
deriving Repr, DecidableEq

/-- The answer of the external structural validator
(`xmlschema.validate` plus its `error_log`) on the document's tree.  The
validator is an out-of-scope collaborator (spec section 6), so its answer
is a parameter; it is deterministic in the tree and the schema, so the same
answer is fed to every method that consults it on the same document. -/
structure SchemaOutcome : Type where
  ok : Bool
  log : List SchemaDiag
deriving Repr, DecidableEq

/-- The `Schema validation result` note of `Rdml.validate`. -/
def schemaResultChunk (ok : Bool) : String :=
  if ok then "Schema validation result:\tTrue\tRDML file is valid.\n"
  else "Schema validation result:\tFalse\tRDML file is not valid.\n"

/-- The two `notes` additions `Rdml.validate` makes per logged error. -/
def schemaErrorChunk (d : SchemaDiag) : String :=
  "Schema validation error:\tFalse\t" ++
    ("Line " ++ toString d.line ++ ", Column " ++ toString d.column ++ ": " ++
      d.message ++ " \n")

/-- The `RDML version` note on the known-version path. -/
def versionTrueChunk (v : String) : String :=
  "RDML version:\tTrue\t" ++ (v ++ "\n")

/-- The `RDML version` note on the unknown-version early return. -/
def versionFalseChunk (v : String) : String :=
  "RDML version:\tFalse\tUnknown schema version" ++ (v ++ "\n")

/-- The `RDML file structure` note after a successful load. -/
def structureTrueChunk : String :=
  "RDML file structure:\tTrue\tValid file structure.\n"

/-- The `RDML file structure` note after a failed load (`str(err)` is the
message of the raised `RdmlError`). -/
def structureFalseChunk (errMessage : String) : String :=
  "RDML file structure:\tFalse\t" ++ (errMessage ++ "\n")

/-- The `notes` pieces `Rdml.validate` concatenates when validating the
instance itself (`filename=None`): with a version outside the
`1.0`/`1.1`/`1.2` dispatch it returns the unknown-version note alone;
otherwise the version note, the pass/fail note, and one note per logged
diagnostic. -/
def validateSelfChunks (vd : RdmlState) (schema : SchemaOutcome) :
    List String :=
  if vd.version ∈ supportedVersions then
    versionTrueChunk vd.version :: schemaResultChunk schema.ok ::
      schema.log.map schemaErrorChunk
  else
    [versionFalseChunk vd.version]

/-- `Rdml.validate(filename=None)` on the instance itself: the returned
notes string. -/
def validateSelf (vd : RdmlState) (schema : SchemaOutcome) : String :=
  String.join (validateSelfChunks vd schema)

/-- A call to `Rdml.validate(filename=None)` as a state transformer: the
method only reads `self` while building its local `notes` string — it
assigns no attribute — so the instance state it leaves behind is the one it
started from. -/
def validateRun (vd : RdmlState) (schema : SchemaOutcome) :
    String × RdmlState :=
  (validateSelf vd schema, vd)

/-- The `notes` pieces of `Rdml.validate(filename)`: `loadResult` is the
outcome of the `Rdml(filename)` construction (the message of the raised
`RdmlError` on failure), an external step combining file reading and
`loadXMLString`. -/
def validateFileChunks (loadResult : Except String RdmlState)
    (schema : SchemaOutcome) : List String :=
  match loadResult with
  | .error err => [structureFalseChunk err]
  | .ok vd => structureTrueChunk :: validateSelfChunks vd schema

/-- `Rdml.validate(filename)`: the returned notes string. -/
def validateFile (loadResult : Except String RdmlState)
    (schema : SchemaOutcome) : String :=
  String.join (validateFileChunks loadResult schema)

/-- `Rdml.isvalid(filename=None)` on the instance itself: `False` outside
the `1.0`/`1.1`/`1.2` dispatch, otherwise the boolean the external schema
validator returned. -/
def isvalidSelf (vd : RdmlState) (schema : SchemaOutcome) : Bool :=
  if vd.version ∈ supportedVersions then schema.ok else false

/-- `Rdml.isvalid(filename)`: `False` when the `Rdml(filename)`
construction raised, otherwise as for the instance itself. -/
def isvalidFile (loadResult : Except String RdmlState)
    (schema : SchemaOutcome) : Bool :=
  match loadResult with
  | .error _ => false
  | .ok vd => isvalidSelf vd schema

/-- Modelled from the spec: the textual serializer (`ET.tostring`) and
parser (`ET.fromstring`) are out-of-scope external collaborators ("parse
text → tree; tree → text", spec sections 1 and 6), absent from the core;
their contract is that parsing a serialized tree yields that tree back, so
their composition is the identity on the document tree. -/
def serializeThenParse (st : RdmlState) : Elem :=
  st.node

/-! ## Concrete documents used as test inputs -/

/-- A well-formed experimenter record. -/
def demoExperimenter : Elem :=
  .mk (nsTag "experimenter") [("id", "exp1")] none
    [.mk (nsTag "firstName") [] (some "Ada") [],
     .mk (nsTag "lastName") [] (some "Lovelace") []]

/-- A root holding a date and one experimenter. -/
def demoRoot : Elem :=
  .mk (nsTag "rdml") [("version", "1.2")] none
    [.mk (nsTag "dateMade") [] (some "2024-01-01T00:00:00") [],
     demoExperimenter]

/-- A root with no experimenter at all. -/
def emptyRoot : Elem :=
  .mk (nsTag "rdml") [("version", "1.2")] none
    [.mk (nsTag "dateMade") [] (some "2024-01-01T00:00:00") []]

/-- A loaded document over `demoRoot`. -/
def demoState : RdmlState := ⟨demoRoot, "1.2"⟩

/-- A root declaring a version no structural contract exists for. -/
def badVersionRoot : Elem :=
  .mk (nsTag "rdml") [("version", "9.9")] none []

/-- A loaded-looking document carrying an unsupported version string. -/
def badVersionState : RdmlState := ⟨badVersionRoot, "9.9"⟩

/-- An experimenter whose optional `email` element is present with empty
text — the shape a document like
`<experimenter id="e1">...<email></email></experimenter>` loads into. -/
def blankEmailExperimenter : Elem :=
  .mk (nsTag "experimenter") [("id", "e1")] none
    [.mk (nsTag "firstName") [] (some "A") [],
     .mk (nsTag "lastName") [] (some "B") [],
     .mk (nsTag "email") [] (some "") []]

/-- A sample diagnostic of the external validator. -/
def demoDiag : SchemaDiag := ⟨2, 7, "bad element"⟩

/-! ## Helper lemmas -/

/-- Two strings differ when their first `n` characters differ, even after
extending the first by a suffix. -/
theorem append_ne_of_take_ne (p r q : String) (n : Nat)
    (hn : n ≤ p.data.length) (hne : p.data.take n ≠ q.data.take n) :
    p ++ r ≠ q := by
  intro h
  apply hne
  calc p.data.take n = (p.data ++ r.data).take n :=
        (List.take_append_of_le_length hn).symm
    _ = (p ++ r).data.take n := by rw [String.data_append]
    _ = q.data.take n := by rw [h]

/-- `_check_unique_id` answers `False` exactly when some child of the tag
group carries the id. -/
theorem checkUniqueIdLoop_eq_false_iff (tag id : String) (l : List Elem) :
    checkUniqueIdLoop tag id l = false ↔
      ∃ c ∈ l, c.tag = nsTag tag ∧ elemGet c "id" = some id := by
  induction l with
  | nil => simp [checkUniqueIdLoop]
  | cons c rest ih =>
    by_cases h : c.tag == nsTag tag && elemGet c "id" == some id
    · have h1 : c.tag = nsTag tag := by
        have := (Bool.and_eq_true _ _).mp h
        exact beq_iff_eq.mp this.1
      have h2 : elemGet c "id" = some id := by
        have := (Bool.and_eq_true _ _).mp h
        exact beq_iff_eq.mp this.2
      simp [checkUniqueIdLoop, h, h1, h2]
    · have hcase : ¬ (c.tag = nsTag tag ∧ elemGet c "id" = some id) := by
        intro hc
        exact h (by simp [hc.1, hc.2])
      simp only [checkUniqueIdLoop, if_neg h, ih, List.mem_cons]
      constructor
      · rintro ⟨d, hd, hprop⟩
        exact ⟨d, Or.inr hd, hprop⟩
      · rintro ⟨d, hd | hd, hprop⟩
        · exact absurd (hd ▸ hprop) hcase
        · exact ⟨d, hd, hprop⟩

/-- The loop of `_add_first_child_to_dic`, expressed through the first
matching child. -/
theorem addFirstChildLoop_eq (dic : JsonDict) (opt : Bool) (tag : String)
    (l : List Elem) :
    addFirstChildLoop dic opt tag l =
      match firstChildLoop tag l with
      | some c => dictSet dic tag c.text
      | none => if opt then dic else dictSet dic tag (some "") := by
  induction l with
  | nil => rfl
  | cons c rest ih =>
    by_cases h : c.tag == nsTag tag
    · simp [addFirstChildLoop, firstChildLoop, h]
    · simp [addFirstChildLoop, firstChildLoop, h, ih]

/-- Key membership after a dictionary write. -/
theorem containsKey_dictSet (dic : JsonDict) (k : String) (v : Option String)
    (key : String) :
    containsKey (dictSet dic k v) key =
      if key = k then true else containsKey dic key := by
  induction dic with
  | nil =>
    by_cases h : key = k
    · simp [dictSet, containsKey, h]
    · simp [dictSet, containsKey, h, Ne.symm h]
  | cons e rest ih =>
    by_cases he : e.1 = k
    · by_cases hk : key = k
      · simp [dictSet, containsKey, he, hk]
      · have h2 : ¬ e.1 = key := fun hh => hk (hh.symm.trans he)
        simp [dictSet, containsKey, he, hk, h2]
    · by_cases hk : key = e.1
      · have h2 : ¬ key = k := fun hh => he (hk.symm.trans hh)
        have h3 : e.1 = key := hk.symm
        simp only [dictSet, containsKey, if_neg he, if_neg h2, if_pos h3]
      · simp [dictSet, containsKey, he, hk, Ne.symm hk, ih]

/-- Key membership after `_add_first_child_to_dic` with an optional tag:
the written key appears exactly when the element is present (or was already
a key), other keys are untouched. -/
theorem containsKey_addFirst (node : Elem) (dic : JsonDict) (t key : String) :
    containsKey (_add_first_child_to_dic node dic true t) key =
      if key = t then ((_get_first_child node t).isSome || containsKey dic key)
      else containsKey dic key := by
  unfold _add_first_child_to_dic _get_first_child
  rw [addFirstChildLoop_eq]
  cases h : firstChildLoop t node.children with
  | none =>
    simp only [h, Option.isSome_none, Bool.false_or]
    by_cases hk : key = t <;> simp [hk]
  | some c =>
    simp only [h, Option.isSome_some, Bool.true_or, containsKey_dictSet]

/-! ## Claim theorems -/

/-- C1: starting from the empty document `new()` builds (format version
`"1.2"`), `new_experimenter` with id `"exp1"`, required fields `"Ada"` and
`"Lovelace"`, absent optional fields and no requested position succeeds,
and `tojson` then projects exactly one record
`{id: "exp1", firstName: "Ada", lastName: "Lovelace"}` with no `email`
key. -/
theorem new_document_scenario_c1 :
    ∃ st st2, rdmlNew "2024-01-01T00:00:00" = Except.ok st ∧
      new_experimenter st (some "exp1") (some "Ada") (some "Lovelace")
        none none none none = Except.ok st2 ∧
      tojson st2 =
        ⟨"1.2", some "2024-01-01T00:00:00", some "",
          [[("id", some "exp1"), ("firstName", some "Ada"),
            ("lastName", some "Lovelace")]]⟩ ∧
      ((tojson st2).experimenters.all fun d => !containsKey d "email") = true :=
  ⟨_, _, rfl, rfl, rfl, rfl⟩

/-- C2: for every base, record kind and requested intra-group position, an
absent or negative position yields offset `0` (the group's first slot), a
position greater than the number of existing records of the kind yields
offset `count` (the group's last slot), and the insertion index is the
group's base position plus that clamped offset. -/
theorem tag_pos_clamping_c2 (base : Elem) (tag : String) (pos : Option Int) :
    (pos = none →
      _get_tag_pos base tag pos = _get_first_tag_pos base tag + 0) ∧
    (∀ p : Int, pos = some p → p < 0 →
      _get_tag_pos base tag pos = _get_first_tag_pos base tag + 0) ∧
    (∀ p : Int, pos = some p → (_get_number_of_children base tag : Int) < p →
      _get_tag_pos base tag pos
        = _get_first_tag_pos base tag + (_get_number_of_children base tag : Int)) := by
  refine ⟨?_, ?_, ?_⟩
  · rintro rfl
    simp [_get_tag_pos]
  · rintro p rfl hp
    have hc : ¬ ((_get_number_of_children base tag : Int) < p) := by
      have := Int.ofNat_nonneg (_get_number_of_children base tag)
      omega
    simp [_get_tag_pos, hc]
  · rintro p rfl hp
    simp [_get_tag_pos, hp]

/-- C2 witness: over `demoRoot` (one existing experimenter, base position
`1`) a requested position of `99` lands at base plus count, a `-3` and an
absent position land at base plus `0`. -/
theorem tag_pos_clamping_c2_witness :
    _get_tag_pos demoRoot "experimenter" (some 99)
        = _get_first_tag_pos demoRoot "experimenter"
            + (_get_number_of_children demoRoot "experimenter" : Int) ∧
    _get_tag_pos demoRoot "experimenter" (some (-3))
        = _get_first_tag_pos demoRoot "experimenter" + 0 ∧
    _get_tag_pos demoRoot "experimenter" none
        = _get_first_tag_pos demoRoot "experimenter" + 0 :=
  ⟨(tag_pos_clamping_c2 demoRoot "experimenter" (some 99)).2.2 99 rfl (by decide),
   (tag_pos_clamping_c2 demoRoot "experimenter" (some (-3))).2.1 (-3) rfl (by decide),
   (tag_pos_clamping_c2 demoRoot "experimenter" none).1 rfl⟩

/-- C4: `_create_new_element` fails with the missing-id error when the id
is `None` or empty; it fails with the duplicate-id error exactly when some
existing child of the kind under the base carries the id; on success it
returns a fresh detached node whose identity attribute is the id and whose
child list is empty — the base is not touched (the function only reads
it). -/
theorem create_record_c4 (base : Elem) (tag : String) (id : Option String) :
    (id = none ∨ id = some "" →
      _create_new_element base tag id
        = .error (.rdmlError ("An " ++ tag ++ " id must be provided."))) ∧
    (∀ s : String, id = some s → s ≠ "" →
      (_check_unique_id base tag s = false ↔
        ∃ c ∈ base.children, c.tag = nsTag tag ∧ elemGet c "id" = some s) ∧
      (_check_unique_id base tag s = false →
        _create_new_element base tag id
          = .error (.rdmlError
              ("The " ++ tag ++ " id \"" ++ s ++ "\" must be unique."))) ∧
      (_check_unique_id base tag s = true →
        _create_new_element base tag id
          = .ok (.mk (nsTag tag) [("id", s)] none []))) := by
  refine ⟨?_, ?_⟩
  · rintro (rfl | rfl)
    · rfl
    · rfl
  · rintro s rfl hs
    refine ⟨checkUniqueIdLoop_eq_false_iff tag s base.children, ?_, ?_⟩
    · intro hdup
      simp [_create_new_element, hs, hdup]
    · intro huniq
      simp [_create_new_element, hs, huniq]

/-- C4 witness: over `demoRoot`, reusing the existing id `"exp1"` fails
with the duplicate-id error (the uniqueness check finds the existing
record), a fresh id `"exp2"` succeeds with a detached childless node, and
an empty id fails with the missing-id error. -/
theorem create_record_c4_witness :
    _create_new_element demoRoot "experimenter" (some "exp1")
        = .error (.rdmlError "The experimenter id \"exp1\" must be unique.") ∧
    _create_new_element demoRoot "experimenter" (some "exp2")
        = .ok (.mk (nsTag "experimenter") [("id", "exp2")] none []) ∧
    _create_new_element demoRoot "experimenter" (some "")
        = .error (.rdmlError "An experimenter id must be provided.") :=
  ⟨((create_record_c4 demoRoot "experimenter" (some "exp1")).2 "exp1" rfl
      (by decide)).2.1 (by decide),
   ((create_record_c4 demoRoot "experimenter" (some "exp2")).2 "exp2" rfl
      (by decide)).2.2 (by decide),
   (create_record_c4 demoRoot "experimenter" (some "")).1 (Or.inr rfl)⟩

/-- C5: the selector-exclusivity failures do raise `RdmlError` with a
message naming the kind, but the two remaining failure paths never produce
the errors the claim describes: an unmatched id crashes on the string
indexing `node["id"]` (`TypeError`) when records of the kind exist, and on
the undefined name `byid` (`NameError`, source line 82) when none do; an
out-of-range position crashes while concatenating the integer position into
its message (`TypeError`, source line 85).  No `RdmlError` carrying the id
or the position is ever constructed. -/
theorem selector_failures_c5 :
    _get_first_child_by_pos_or_id demoRoot "experimenter" none none
      = .error (.rdmlError
          "Either an experimenter id or a position must be provided.") ∧
    _get_first_child_by_pos_or_id demoRoot "experimenter" (some "exp1") (some 0)
      = .error (.rdmlError
          "Only an experimenter id or a position can be provided.") ∧
    _get_first_child_by_pos_or_id demoRoot "experimenter" (some "zz") none
      = .error (.typeError "element indices must be integers") ∧
    _get_first_child_by_pos_or_id emptyRoot "experimenter" (some "zz") none
      = .error (.nameError "byid") ∧
    _get_first_child_by_pos_or_id demoRoot "experimenter" none (some 5)
      = .error (.typeError "cannot concatenate str and int") ∧
    _get_first_child_by_pos_or_id demoRoot "experimenter" none (some (-1))
      = .error (.typeError "cannot concatenate str and int") :=
  ⟨rfl, rfl, rfl, rfl, rfl, rfl⟩

/-- C6 counterexample: on a record whose `email` element is present with
empty text, `getOptionalField` (the optional branch of
`Experimenter.__getitem__`) reads absent, yet `Experimenter.tojson`
(`_add_first_child_to_dic`) still emits the `"email"` key — so the exported
projection does not contain the optional key "if and only if the field is
present with non-empty text". -/
theorem optional_export_counterexample_c6 :
    (_get_first_child blankEmailExperimenter "email").isSome = true ∧
    _get_first_child_text blankEmailExperimenter "email" = some "" ∧
    experimenter_getitem blankEmailExperimenter "email" = .ok none ∧
    containsKey (experimenterToJson blankEmailExperimenter) "email" = true :=
  ⟨rfl, rfl, rfl, rfl⟩

/-- The optional branch of `Experimenter.__getitem__`, isolated. -/
theorem experimenter_getitem_optional (node : Elem) (tag : String)
    (h1 : ¬ tag = "id") (h2 : ¬ (tag = "firstName" ∨ tag = "lastName"))
    (h3 : tag = "email" ∨ tag = "labName" ∨ tag = "labAddress") :
    experimenter_getitem node tag =
      match _get_first_child_text node tag with
      | some "" => .ok none
      | v => .ok v := by
  unfold experimenter_getitem
  rw [if_neg h1, if_neg h2, if_pos h3]

/-- C6 (amended): for every record and optional field, `getOptionalField`
returns absent both when the field element is missing and when its text is
empty; and the exported projection contains the optional field's key if and
only if the field element is present — its value then being the element's
text, which may itself be empty. -/
theorem optional_fields_amended_c6 (node : Elem) (tag : String)
    (htag : tag = "email" ∨ tag = "labName" ∨ tag = "labAddress") :
    (experimenter_getitem node tag = .ok none ↔
      (_get_first_child node tag = none ∨
        ∃ c, _get_first_child node tag = some c ∧
          (c.text = none ∨ c.text = some ""))) ∧
    containsKey (experimenterToJson node) tag
      = (_get_first_child node tag).isSome := by
  have h1 : ¬ tag = "id" := by rcases htag with rfl | rfl | rfl <;> decide
  have h2 : ¬ (tag = "firstName" ∨ tag = "lastName") := by
    rcases htag with rfl | rfl | rfl <;> decide
  constructor
  · rw [experimenter_getitem_optional node tag h1 h2 htag]
    unfold _get_first_child_text
    cases hfc : _get_first_child node tag with
    | none => simp
    | some c =>
      cases htx : c.text with
      | none => simp [htx]
      | some s =>
        by_cases hs : s = ""
        · subst hs; simp [htx]
        · simp [htx, hs]
  · have hkeys : containsKey
        [("id", elemGet node "id"),
         ("firstName", _get_first_child_text node "firstName"),
         ("lastName", _get_first_child_text node "lastName")] tag = false := by
      rcases htag with rfl | rfl | rfl <;> rfl
    rcases htag with rfl | rfl | rfl <;>
      simp [experimenterToJson, containsKey_addFirst, hkeys]

/-- C6 (amended) witness: on `demoExperimenter` (no `email` element) the
exported projection omits the `"email"` key, as the amended equivalence
instantiates. -/
theorem optional_fields_amended_c6_witness :
    containsKey (experimenterToJson demoExperimenter) "email"
      = (_get_first_child demoExperimenter "email").isSome :=
  (optional_fields_amended_c6 demoExperimenter "email" (Or.inl rfl)).2

/-- C3: with a valid fresh id, `new_experimenter` called with an empty or
absent required field (`firstName`, or `lastName` after a valid
`firstName`) fails with the missing-required-field error, and the document
is left unchanged — in particular the experimenter count is what it was
before the call (the source touches `self._node` only in its final
`insert`, which the raise never reaches). -/
theorem required_field_enforcement_c3 (st : RdmlState) (s : String)
    (firstName lastName email labName labAddress : Option String)
    (newposition : Option Int)
    (hs : ¬ s = "")
    (huniq : _check_unique_id st.node "experimenter" s = true)
    (hmiss : (firstName = none ∨ firstName = some "") ∨
      ((∃ t, firstName = some t ∧ ¬ t = "") ∧
        (lastName = none ∨ lastName = some ""))) :
    (∃ fld, (fld = "firstName" ∨ fld = "lastName") ∧
      new_experimenter st (some s) firstName lastName email labName
          labAddress newposition
        = .error (.rdmlError ("An experimenter " ++ fld ++ " must be provided."))) ∧
    new_experimenter_after st (some s) firstName lastName email labName
        labAddress newposition = st ∧
    _get_number_of_children
        (new_experimenter_after st (some s) firstName lastName email labName
          labAddress newposition).node "experimenter"
      = _get_number_of_children st.node "experimenter" := by
  have h0 : _create_new_element st.node "experimenter" (some s)
      = Except.ok (.mk (nsTag "experimenter") [("id", s)] none []) := by
    simp [_create_new_element, hs, huniq]
  have herr : ∃ fld, (fld = "firstName" ∨ fld = "lastName") ∧
      new_experimenter st (some s) firstName lastName email labName
          labAddress newposition
        = .error (.rdmlError ("An experimenter " ++ fld ++ " must be provided.")) := by
    rcases hmiss with hf | ⟨⟨t, hft, htne⟩, hl⟩
    · refine ⟨"firstName", Or.inl rfl, ?_⟩
      rcases hf with rfl | rfl <;>
        simp [new_experimenter, h0, _add_new_subelement, Bind.bind, Except.bind]
    · refine ⟨"lastName", Or.inr rfl, ?_⟩
      subst hft
      rcases hl with rfl | rfl <;>
        simp [new_experimenter, h0, _add_new_subelement, htne, Bind.bind,
          Except.bind]
  obtain ⟨fld, hfld, heq⟩ := herr
  have hafter : new_experimenter_after st (some s) firstName lastName email
      labName labAddress newposition = st := by
    unfold new_experimenter_after
    rw [heq]
  exact ⟨⟨fld, hfld, heq⟩, hafter, by rw [hafter]⟩

/-- C3 witness: over the loaded `demoState`, adding an experimenter with
fresh id `"exp9"` but an absent `firstName` fails with the
missing-required-field error and leaves the document (and its experimenter
count) unchanged. -/
theorem required_field_enforcement_c3_witness :
    (∃ fld, (fld = "firstName" ∨ fld = "lastName") ∧
      new_experimenter demoState (some "exp9") none (some "X") none none
          none none
        = .error (.rdmlError ("An experimenter " ++ fld ++ " must be provided."))) ∧
    new_experimenter_after demoState (some "exp9") none (some "X") none none
        none none = demoState ∧
    _get_number_of_children
        (new_experimenter_after demoState (some "exp9") none (some "X") none
          none none none).node "experimenter"
      = _get_number_of_children demoState.node "experimenter" :=
  required_field_enforcement_c3 demoState "exp9" none (some "X") none none
    none none (by decide) (by decide) (Or.inl (Or.inl rfl))

/-- C7: after the external parse, loading fails with a format error
(`RdmlError`) when the root tag is not the namespaced `rdml`, and — with
the right root tag — when the declared `version` attribute is missing or
not one of exactly `"1.0"`, `"1.1"`, `"1.2"`; on success the stored version
is the declared one, the tree is kept, and the version is supported. -/
theorem load_version_gate_c7 (root : Elem) :
    (¬ root.tag = nsTag "rdml" →
      loadXMLString root = .error (.rdmlError
        "Root element is not \x27rdml\x27, not a valid RDML or XML file.")) ∧
    (root.tag = nsTag "rdml" → ∀ v, elemGet root "version" = some v →
      v ∉ supportedVersions →
      loadXMLString root
        = .error (.rdmlError "Unknown or unsupported RDML file version.")) ∧
    (root.tag = nsTag "rdml" → elemGet root "version" = none →
      loadXMLString root
        = .error (.rdmlError "Unknown or unsupported RDML file version.")) ∧
    (∀ st, loadXMLString root = .ok st →
      root.tag = nsTag "rdml" ∧ elemGet root "version" = some st.version ∧
      st.version ∈ supportedVersions ∧ st.node = root) ∧
    supportedVersions = ["1.0", "1.1", "1.2"] := by
  refine ⟨?_, ?_, ?_, ?_, rfl⟩
  · intro h
    simp [loadXMLString, h]
  · intro h v hv hns
    simp [loadXMLString, h, hv, hns]
  · intro h hv
    simp [loadXMLString, h, hv]
  · intro st hok
    unfold loadXMLString at hok
    by_cases h : root.tag = nsTag "rdml"
    · rw [if_pos h] at hok
      cases hv : elemGet root "version" with
      | none => rw [hv] at hok; exact absurd hok (by simp)
      | some v =>
        rw [hv] at hok
        by_cases hm : v ∈ supportedVersions
        · simp only [hm, if_true] at hok
          injection hok with h2
          subst h2
          exact ⟨h, rfl, hm, rfl⟩
        · simp only [hm, if_false] at hok
          exact absurd hok (by simp)
    · rw [if_neg h] at hok
      exact absurd hok (by simp)

/-- C7 witness: a root declaring version `"9.9"` is rejected with the
unsupported-version error, a root with the wrong tag is rejected as not an
RDML file, and loading `demoRoot` succeeds storing version `"1.2"`. -/
theorem load_version_gate_c7_witness :
    loadXMLString badVersionRoot
      = .error (.rdmlError "Unknown or unsupported RDML file version.") ∧
    loadXMLString (.mk "wrongRoot" [] none [])
      = .error (.rdmlError
          "Root element is not \x27rdml\x27, not a valid RDML or XML file.") ∧
    (demoRoot.tag = nsTag "rdml" ∧
      elemGet demoRoot "version" = some (RdmlState.mk demoRoot "1.2").version ∧
      (RdmlState.mk demoRoot "1.2").version ∈ supportedVersions ∧
      (RdmlState.mk demoRoot "1.2").node = demoRoot) :=
  ⟨(load_version_gate_c7 badVersionRoot).2.1 rfl "9.9" rfl (by decide),
   (load_version_gate_c7 (.mk "wrongRoot" [] none [])).1 (by decide),
   (load_version_gate_c7 demoRoot).2.2.2.1 ⟨demoRoot, "1.2"⟩ rfl⟩

/-- C8: for every loaded document (root tagged `rdml`, declared version
stored and supported — the shape every `loadXMLString` result has),
serializing the tree and loading it back succeeds and exports the same
projection, records included. -/
theorem roundtrip_c8 (st : RdmlState)
    (htag : st.node.tag = nsTag "rdml")
    (hver : elemGet st.node "version" = some st.version)
    (hsup : st.version ∈ supportedVersions) :
    ∃ st2, loadXMLString (serializeThenParse st) = .ok st2 ∧
      tojson st2 = tojson st := by
  refine ⟨⟨st.node, st.version⟩, ?_, rfl⟩
  simp [serializeThenParse, loadXMLString, htag, hver, hsup]

/-- C8 witness: the round trip over the loaded `demoState` (one
well-formed record) reproduces its projection. -/
theorem roundtrip_c8_witness :
    ∃ st2, loadXMLString (serializeThenParse demoState) = .ok st2 ∧
      tojson st2 = tojson demoState :=
  roundtrip_c8 demoState rfl rfl (by decide)

/-- C9: a `validate()` call on a loaded document returns the instance
state it started from (the method assigns no attribute — tree and stored
version are identical before and after), and its notes carry the pass/fail
line determined by the external validator plus one
`Line .., Column ..: ..` line per logged diagnostic. -/
theorem validate_frame_c9 (vd : RdmlState) (schema : SchemaOutcome)
    (h : vd.version ∈ supportedVersions) :
    (validateRun vd schema).2 = vd ∧
    (validateRun vd schema).2.node = vd.node ∧
    (validateRun vd schema).2.version = vd.version ∧
    schemaResultChunk schema.ok ∈ validateSelfChunks vd schema ∧
    (∀ d ∈ schema.log, schemaErrorChunk d ∈ validateSelfChunks vd schema) := by
  refine ⟨rfl, rfl, rfl, ?_, ?_⟩
  · simp [validateSelfChunks, h]
  · intro d hd
    simp only [validateSelfChunks, if_pos h, List.mem_cons, List.mem_map]
    exact Or.inr (Or.inr ⟨d, hd, rfl⟩)

/-- C9 witness: validating `demoState` against a failing outcome with one
diagnostic leaves the state untouched and reports the failure and the
diagnostic. -/
theorem validate_frame_c9_witness :
    (validateRun demoState ⟨false, [demoDiag]⟩).2 = demoState ∧
    schemaResultChunk false ∈ validateSelfChunks demoState ⟨false, [demoDiag]⟩ ∧
    schemaErrorChunk demoDiag
      ∈ validateSelfChunks demoState ⟨false, [demoDiag]⟩ :=
  ⟨(validate_frame_c9 demoState ⟨false, [demoDiag]⟩ (by decide)).1,
   (validate_frame_c9 demoState ⟨false, [demoDiag]⟩ (by decide)).2.2.2.1,
   (validate_frame_c9 demoState ⟨false, [demoDiag]⟩ (by decide)).2.2.2.2
     demoDiag (by simp)⟩

/-- A diagnostic note never coincides with the pass/fail note. -/
theorem schemaErrorChunk_ne_result (d : SchemaDiag) (b : Bool) :
    schemaErrorChunk d ≠ schemaResultChunk b := by
  cases b <;> exact append_ne_of_take_ne _ _ _ 24 (by decide) (by decide)

/-- The known-version note never coincides with the pass/fail note. -/
theorem versionTrueChunk_ne_result (v : String) (b : Bool) :
    versionTrueChunk v ≠ schemaResultChunk b := by
  cases b <;> exact append_ne_of_take_ne _ _ _ 4 (by decide) (by decide)

/-- The unknown-version note never coincides with the pass/fail note. -/
theorem versionFalseChunk_ne_result (v : String) (b : Bool) :
    versionFalseChunk v ≠ schemaResultChunk b := by
  cases b <;> exact append_ne_of_take_ne _ _ _ 4 (by decide) (by decide)

/-- The structure-ok note never coincides with the pass/fail note. -/
theorem structureTrueChunk_ne_result (b : Bool) :
    structureTrueChunk ≠ schemaResultChunk b := by
  cases b <;> decide

/-- The failed-load note never coincides with the pass/fail note. -/
theorem structureFalseChunk_ne_result (e : String) (b : Bool) :
    structureFalseChunk e ≠ schemaResultChunk b := by
  cases b <;> exact append_ne_of_take_ne _ _ _ 4 (by decide) (by decide)

/-- C10: `isvalid` and `validate` agree on every input they share: the
boolean is `True` exactly when the notes of `validate` contain the passing
schema line, and it is `False` whenever `validate` reports a load failure,
an unknown schema version, or a failed schema validation. -/
theorem isvalid_validate_agree_c10 (loadResult : Except String RdmlState)
    (schema : SchemaOutcome) :
    (isvalidFile loadResult schema = true ↔
      schemaResultChunk true ∈ validateFileChunks loadResult schema) ∧
    (∀ e, loadResult = .error e → isvalidFile loadResult schema = false) ∧
    (∀ vd, loadResult = .ok vd → vd.version ∉ supportedVersions →
      isvalidFile loadResult schema = false ∧
      versionFalseChunk vd.version ∈ validateFileChunks loadResult schema) ∧
    (schemaResultChunk false ∈ validateFileChunks loadResult schema →
      isvalidFile loadResult schema = false) := by
  have hErr : ∀ d b, ¬ (schemaResultChunk b = schemaErrorChunk d) :=
    fun d b => Ne.symm (schemaErrorChunk_ne_result d b)
  have hVT : ∀ v b, ¬ (schemaResultChunk b = versionTrueChunk v) :=
    fun v b => Ne.symm (versionTrueChunk_ne_result v b)
  have hVF : ∀ v b, ¬ (schemaResultChunk b = versionFalseChunk v) :=
    fun v b => Ne.symm (versionFalseChunk_ne_result v b)
  have hST : ∀ b, ¬ (schemaResultChunk b = structureTrueChunk) :=
    fun b => Ne.symm (structureTrueChunk_ne_result b)
  have hSF : ∀ e b, ¬ (schemaResultChunk b = structureFalseChunk e) :=
    fun e b => Ne.symm (structureFalseChunk_ne_result e b)
  have hTF : ¬ (schemaResultChunk true = schemaResultChunk false) := by decide
  refine ⟨?_, ?_, ?_, ?_⟩
  · cases loadResult with
    | error e =>
      simp [isvalidFile, validateFileChunks, hSF e true]
    | ok vd =>
      by_cases hv : vd.version ∈ supportedVersions
      · cases hok : schema.ok with
        | true =>
          simp [isvalidFile, isvalidSelf, validateFileChunks,
            validateSelfChunks, hv, hok]
        | false =>
          simp [isvalidFile, isvalidSelf, validateFileChunks,
            validateSelfChunks, hv, hok, hST true, hVT vd.version true, hTF,
            schemaErrorChunk_ne_result]
      · simp [isvalidFile, isvalidSelf, validateFileChunks,
          validateSelfChunks, hv, hST true, hVF vd.version true]
  · rintro e rfl
    rfl
  · rintro vd rfl hv
    refine ⟨by simp [isvalidFile, isvalidSelf, hv], ?_⟩
    simp [validateFileChunks, validateSelfChunks, hv]
  · intro hmem
    cases loadResult with
    | error e => rfl
    | ok vd =>
      by_cases hv : vd.version ∈ supportedVersions
      · simp only [validateFileChunks, validateSelfChunks, if_pos hv,
          List.mem_cons, List.mem_map] at hmem
        rcases hmem with h | h | h | ⟨d, _, h⟩
        · exact absurd h (hST false)
        · exact absurd h (hVT vd.version false)
        · cases hok : schema.ok with
          | true => rw [hok] at h; exact absurd h.symm hTF
          | false => simp [isvalidFile, isvalidSelf, hv, hok]
        · exact absurd h.symm (hErr d false)
      · simp [isvalidFile, isvalidSelf, hv]

/-- C10 witness: an unknown stored version makes `isvalid` return `False`
while `validate` reports the unknown-version note; on the well-formed
`demoState` the boolean matches the presence of the passing schema line;
and a failed load makes `isvalid` return `False`. -/
theorem isvalid_validate_agree_c10_witness :
    isvalidFile (.ok badVersionState) ⟨true, []⟩ = false ∧
    versionFalseChunk "9.9"
      ∈ validateFileChunks (.ok badVersionState) ⟨true, []⟩ ∧
    (isvalidFile (.ok demoState) ⟨true, []⟩ = true ↔
      schemaResultChunk true ∈ validateFileChunks (.ok demoState) ⟨true, []⟩) ∧
    isvalidFile
        (.error "XML load error, not a valid RDML or XML file.") ⟨true, []⟩
      = false :=
  ⟨((isvalid_validate_agree_c10 (.ok badVersionState) ⟨true, []⟩).2.2.1
      badVersionState rfl (by decide)).1,
   ((isvalid_validate_agree_c10 (.ok badVersionState) ⟨true, []⟩).2.2.1
      badVersionState rfl (by decide)).2,
   (isvalid_validate_agree_c10 (.ok demoState) ⟨true, []⟩).1,
   (isvalid_validate_agree_c10
      (.error "XML load error, not a valid RDML or XML file.") ⟨true, []⟩).2.1
      "XML load error, not a valid RDML or XML file." rfl⟩
